import Mathlib

/-!
Shallow embedding of the navigation core of the BrainAI education site:
the fragment router of the `App` component (`handleHashChange`), the content
composer (`renderHomePageContent` / `renderSinglePageContent` and the
`isHomePage` dispatch), and the navigation links of the `Header` component.
All definitions are transcribed from the React/TypeScript source.
-/

/-- The section components imported by `App`, one constructor per React
component that the composer can mount. -/
inductive Comp where
  | hero
  | about
  | programDetails
  | aixProject
  | multiSorterProject
  | autonomousCarProject
  | studentExchange
  deriving DecidableEq, Repr

/-- One entry of the composed render output: the wrapper key (present only
in single-page mode), the mounted component, and whether it is displayed
(`display: block` vs `display: none`; home-mode sections carry no wrapper
and are always displayed). -/
structure RenderedSection where
  key : Option String
  comp : Comp
  visible : Bool
  deriving DecidableEq, Repr

/-- The `pages` object of `renderSinglePageContent`, in insertion order
(JavaScript `Object.entries` preserves insertion order for these
non-integer string keys). -/
def pages : List (String × Comp) :=
  [("#about", Comp.about),
   ("#programs", Comp.programDetails),
   ("#autonomous-car", Comp.autonomousCarProject),
   ("#aix", Comp.aixProject),
   ("#multi-sorter", Comp.multiSorterProject),
   ("#student-exchange", Comp.studentExchange)]

/-- Function `renderHomePageContent`: the fixed concatenated home output, every
section mounted directly (no keyed wrapper) and visible. -/
def renderHomePageContent : List RenderedSection :=
  [⟨none, Comp.hero, true⟩,
   ⟨none, Comp.about, true⟩,
   ⟨none, Comp.programDetails, true⟩,
   ⟨none, Comp.aixProject, true⟩,
   ⟨none, Comp.multiSorterProject, true⟩,
   ⟨none, Comp.autonomousCarProject, true⟩,
   ⟨none, Comp.studentExchange, true⟩]

/-- Function `renderSinglePageContent`: every entry of `pages` is mounted in a keyed
wrapper whose display style is `block` exactly when `currentView` equals
the key of the entry, else `none`. -/
def renderSinglePageContent (currentView : String) : List RenderedSection :=
  pages.map (fun p => ⟨some p.1, p.2, currentView == p.1⟩)

/-- Function `isHomePage`: `currentView === "#home" || currentView === "#hero"`. -/
def isHomePage (currentView : String) : Bool :=
  currentView == "#home" || currentView == "#hero"

/-- The ternary in the JSX of `App`:
`isHomePage ? renderHomePageContent() : renderSinglePageContent()`. -/
def renderMain (currentView : String) : List RenderedSection :=
  if isHomePage currentView then renderHomePageContent
  else renderSinglePageContent currentView

/-- The components currently displayed for a given navigation state. -/
def visibleComps (currentView : String) : List Comp :=
  ((renderMain currentView).filter (fun r => r.visible)).map (fun r => r.comp)

/-- Observable state of `App`: the `currentView` React state plus the
viewport scroll position mutated by `window.scrollTo`. -/
structure AppState where
  currentView : String
  scroll : Nat × Nat
  deriving DecidableEq, Repr

/-- Embedding of `window.location.hash || "#home"`: the empty string is the only falsy
string, so it alone falls back to `#home`. -/
def orHome (hash : String) : String :=
  if hash = "" then "#home" else hash

/-- State setter `setCurrentView`. -/
def setCurrentView (v : String) (s : AppState) : AppState :=
  { s with currentView := v }

/-- Embedding of `window.scrollTo(x, y)`. -/
def scrollTo (x y : Nat) (s : AppState) : AppState :=
  { s with scroll := (x, y) }

/-- Handler `handleHashChange`: store `location.hash || "#home"` via
`setCurrentView`, then `window.scrollTo(0, 0)`. `hash` is the
browser-reported fragment at the time the handler runs. -/
def handleHashChange (hash : String) (s : AppState) : AppState :=
  scrollTo 0 0 (setCurrentView (orHome hash) s)

/-- The state right after `useState(window.location.hash || "#home")`:
`currentView` is initialized from the ambient fragment, the scroll
position is whatever the browser had (`scroll0`). -/
def initState (hash : String) (scroll0 : Nat × Nat) : AppState :=
  { currentView := orHome hash, scroll := scroll0 }

/-- App startup: the initial `useState` value followed by the explicit
`handleHashChange()` call that the mount effect performs after
registering the `hashchange` listener ("Initial load check"). -/
def appInit (hash : String) (scroll0 : Nat × Nat) : AppState :=
  handleHashChange hash (initState hash scroll0)

/-- Running the fragment-change handler over a whole sequence of
browser-reported fragment values. -/
def run (hashes : List String) (s : AppState) : AppState :=
  hashes.foldl (fun t h => handleHashChange h t) s

/-- The `navLinks` array of the `Header` component: (label, href). -/
def navLinks : List (String × String) :=
  [("소개", "#about"),
   ("프로그램", "#programs"),
   ("AI + X", "#aix"),
   ("자동분류 챌린지", "#multi-sorter"),
   ("자율주행 챌린지", "#autonomous-car"),
   ("학생 교류", "#student-exchange")]

/-- The href values of every anchor element rendered by `Header`: the
`#home` logo link followed by the hrefs of `navLinks`. -/
def headerHrefs : List String :=
  "#home" :: navLinks.map Prod.snd

/-- The fragment values the app recognizes: the two home synonyms accepted
by `isHomePage` plus the keys of the `pages` registry. -/
def recognizedFragments : List String :=
  "#home" :: "#hero" :: pages.map Prod.fst

/-- The home-mode concatenation order restricted to the sections that also
appear in the single-page registry (every section except the hero block). -/
def homeRegistryOrder : List Comp :=
  (renderHomePageContent.map (fun r => r.comp)).filter (fun c => c != Comp.hero)

/-- Registry keys are never treated as home aliases. -/
theorem isHomePage_of_pages_key (f : String) (hf : f ∈ pages.map Prod.fst) :
    isHomePage f = false := by
  simp only [pages, List.map_cons, List.map_nil, List.mem_cons,
    List.not_mem_nil, or_false] at hf
  rcases hf with h | h | h | h | h | h <;> subst h <;> decide

/-- C1: for every navigation state `f` that is a key of the registry, the
composed output mounts all six registry entries in registry order, and
exactly one of them is visible, namely the entry whose key is `f`. -/
theorem single_page_one_visible (f : String) (hf : f ∈ pages.map Prod.fst) :
    (renderMain f).map (fun r => (r.key, r.comp)) =
      pages.map (fun p => (some p.1, p.2)) ∧
    ((renderMain f).filter (fun r => r.visible)).map (fun r => r.key) =
      [some f] := by
  simp only [pages, List.map_cons, List.map_nil, List.mem_cons,
    List.not_mem_nil, or_false] at hf
  rcases hf with h | h | h | h | h | h <;> subst h <;> exact ⟨by decide, by decide⟩

/-- Witness for C1 at the concrete key `#aix`. -/
theorem single_page_one_visible_witness :
    (renderMain "#aix").map (fun r => (r.key, r.comp)) =
      pages.map (fun p => (some p.1, p.2)) ∧
    ((renderMain "#aix").filter (fun r => r.visible)).map (fun r => r.key) =
      [some "#aix"] :=
  single_page_one_visible "#aix" (by decide)

/-- C2: for `f` one of the home aliases, the composed output is the fixed
concatenated home page: all sections visible, in the order hero, about,
programs, aix, multi-sorter, autonomous-car, student-exchange. -/
theorem home_render_all_visible (f : String) (hf : f = "#home" ∨ f = "#hero") :
    renderMain f = renderHomePageContent ∧
    (renderMain f).map (fun r => r.comp) =
      [Comp.hero, Comp.about, Comp.programDetails, Comp.aixProject,
       Comp.multiSorterProject, Comp.autonomousCarProject, Comp.studentExchange] ∧
    ∀ r ∈ renderMain f, r.visible = true := by
  rcases hf with h | h <;> subst h <;> exact ⟨by decide, by decide, by decide⟩

/-- Witness for C2 at the concrete fragment `#home`. -/
theorem home_render_all_visible_witness :
    renderMain "#home" = renderHomePageContent ∧
    (renderMain "#home").map (fun r => r.comp) =
      [Comp.hero, Comp.about, Comp.programDetails, Comp.aixProject,
       Comp.multiSorterProject, Comp.autonomousCarProject, Comp.studentExchange] ∧
    ∀ r ∈ renderMain "#home", r.visible = true :=
  home_render_all_visible "#home" (Or.inl rfl)

/-- C3: an empty browser-reported fragment yields NavigationState `#home`,
both in the fragment-change handler and at initialization. -/
theorem empty_fragment_gives_home (s : AppState) (scroll0 : Nat × Nat) :
    (handleHashChange "" s).currentView = "#home" ∧
    (initState "" scroll0).currentView = "#home" :=
  ⟨rfl, rfl⟩

/-- C4: for `f` neither a home alias nor a registry key, the composed
output mounts all six registry entries and none of them is visible. -/
theorem unknown_fragment_nothing_visible (f : String)
    (hhome : isHomePage f = false) (hkey : f ∉ pages.map Prod.fst) :
    (renderMain f).map (fun r => (r.key, r.comp)) =
      pages.map (fun p => (some p.1, p.2)) ∧
    (renderMain f).filter (fun r => r.visible) = [] := by
  have hne : f ≠ "#about" ∧ f ≠ "#programs" ∧ f ≠ "#autonomous-car" ∧
      f ≠ "#aix" ∧ f ≠ "#multi-sorter" ∧ f ≠ "#student-exchange" := by
    simpa [pages, not_or] using hkey
  obtain ⟨a1, a2, a3, a4, a5, a6⟩ := hne
  constructor
  · simp [renderMain, hhome, renderSinglePageContent, pages]
  · simp [renderMain, hhome, renderSinglePageContent, pages,
      a1, a2, a3, a4, a5, a6]

/-- Witness for C4 at the concrete unrecognized fragment `#unknown-page`. -/
theorem unknown_fragment_nothing_visible_witness :
    (renderMain "#unknown-page").map (fun r => (r.key, r.comp)) =
      pages.map (fun p => (some p.1, p.2)) ∧
    (renderMain "#unknown-page").filter (fun r => r.visible) = [] :=
  unknown_fragment_nothing_visible "#unknown-page" (by decide) (by decide)

/-- Counterexample for C5: the insertion order of the registry does not equal
the home-page concatenation order of those same sections — the registry
inserts autonomous-car third, while home mode renders it fifth. -/
theorem registry_order_differs_from_home_order :
    pages.map Prod.snd ≠ homeRegistryOrder := by
  decide

/-- C5 amended: the sections of the registry and the registry sections of the
home output are the same six sections (a permutation), but the orders
differ. -/
theorem registry_sections_permute_home_order :
    (pages.map Prod.snd).Perm homeRegistryOrder ∧
    pages.map Prod.snd ≠ homeRegistryOrder := by
  exact ⟨by decide, by decide⟩

/-- C6: the fragment-change handler is idempotent — invoking it twice with
the same browser fragment yields the same state (hence the same visible
set) as invoking it once. -/
theorem hash_handler_idempotent (h : String) (s : AppState) :
    handleHashChange h (handleHashChange h s) = handleHashChange h s ∧
    visibleComps (handleHashChange h (handleHashChange h s)).currentView =
      visibleComps (handleHashChange h s).currentView :=
  ⟨rfl, rfl⟩

/-- C7: on every fragment change the handler stores the new NavigationState
and sets the viewport scroll position to the origin, in that order. -/
theorem hash_change_scrolls_to_origin (h : String) (s : AppState) :
    handleHashChange h s = scrollTo 0 0 (setCurrentView (orHome h) s) ∧
    (handleHashChange h s).scroll = (0, 0) ∧
    (handleHashChange h s).currentView = orHome h :=
  ⟨rfl, rfl, rfl⟩

/-- The normalized fragment is never the empty string. -/
theorem orHome_ne_empty (h : String) : orHome h ≠ "" := by
  unfold orHome
  by_cases he : h = "" <;> simp [he]

/-- Running the handler preserves non-emptiness of `currentView`. -/
theorem run_preserves_nonempty (hs : List String) (s : AppState)
    (h : s.currentView ≠ "") : (run hs s).currentView ≠ "" := by
  induction hs generalizing s with
  | nil => exact h
  | cons x xs ih =>
      exact ih (handleHashChange x s) (orHome_ne_empty x)

/-- C8: `currentView` is non-empty at initialization and stays non-empty
after any sequence of fragment-change events, whatever fragment values
(including empty ones) the browser reports. -/
theorem currentView_always_nonempty (hash0 : String) (scroll0 : Nat × Nat)
    (hs : List String) :
    (initState hash0 scroll0).currentView ≠ "" ∧
    (run hs (initState hash0 scroll0)).currentView ≠ "" :=
  ⟨orHome_ne_empty hash0,
   run_preserves_nonempty hs (initState hash0 scroll0) (orHome_ne_empty hash0)⟩

/-- Counterexample for C9: `#hero` is a recognized fragment, but no anchor
in the Header carries it, so the href set of the Header is not the full set of
recognized fragments. -/
theorem header_hrefs_missing_hero :
    "#hero" ∈ recognizedFragments ∧ "#hero" ∉ headerHrefs ∧
    ¬(∀ x : String, x ∈ headerHrefs ↔ x ∈ recognizedFragments) := by
  refine ⟨by decide, by decide, fun hall => ?_⟩
  exact absurd ((hall "#hero").mpr (by decide)) (by decide)

/-- C9 amended: the set of href values of the anchor elements of the Header is
exactly the set of recognized fragments with `#hero` removed. -/
theorem header_hrefs_recognized_minus_hero (x : String) :
    x ∈ headerHrefs ↔ x ∈ recognizedFragments ∧ x ≠ "#hero" := by
  constructor
  · intro h
    simp only [headerHrefs, navLinks, List.map_cons, List.map_nil,
      List.mem_cons, List.not_mem_nil, or_false] at h
    rcases h with h | h | h | h | h | h | h <;> subst h <;>
      exact ⟨by decide, by decide⟩
  · rintro ⟨h1, h2⟩
    simp only [recognizedFragments, pages, List.map_cons, List.map_nil,
      List.mem_cons, List.not_mem_nil, or_false] at h1
    rcases h1 with h | h | h | h | h | h | h | h <;>
      first
        | exact absurd h h2
        | (subst h; decide)

/-- C10: at startup the mount effect invokes the fragment handler once
explicitly, so the state after initialization is exactly the handler
applied to the initial state: `currentView` is recomputed from the
ambient fragment and the viewport is scrolled to the origin. -/
theorem startup_invokes_handler_once (hash : String) (scroll0 : Nat × Nat) :
    appInit hash scroll0 = handleHashChange hash (initState hash scroll0) ∧
    (appInit hash scroll0).scroll = (0, 0) ∧
    (appInit hash scroll0).currentView = orHome hash :=
  ⟨rfl, rfl, rfl⟩
